import Mathlib

/-!
# dynamicgrpc: a shallow embedding of `main.go`

The program wires a Kubernetes-backed dynamic TLS listener to a gRPC server.
Its own logic is the request router `grpcHandlerFunc`, the option builder
`grpcServer`, and the sequential set-up in `main`.  Calls into imported
libraries are modelled as an environment of outcomes (`Env`) and every call
the program makes is recorded in a trace.

Go strings are modelled by `String`, Go `int` and `time.Duration` by `Int`,
pointers that the program may receive as `nil` by `Option`.
-/

namespace DynamicGrpc

/-! ## Requests and headers -/

/-- Go `http.Header`: a map from header key to the list of its values,
represented as an association list searched from the front. -/
abbrev Header := List (String × List String)

/-- Go `Header.Get(key)`: the first value stored under `key`, or the empty
string when the key is absent or has no values.  The only key the program
asks for, `Content-Type`, is already in canonical MIME form, so the
canonicalisation done by the library is the identity on it. -/
def Header.Get (h : Header) (key : String) : String :=
  match h.lookup key with
  | some (v :: _) => v
  | _ => ""

/-- Go `*http.Request`, with the fields the program reads and the fields a
handler could change. -/
structure Request where
  Method : String
  URL : String
  Proto : String
  ProtoMajor : Int
  ProtoMinor : Int
  Header : Header
  Body : List Nat
  deriving DecidableEq, Repr

/-- Go `strings.HasPrefix(s, p)`:
`len(s) >= len(p) && s[:len(p)] == p`.  Go compares bytes; on the UTF-8
strings modelled here a byte-wise and a character-wise test of an initial
segment agree. -/
def HasPrefix (s p : String) : Bool :=
  decide (p.length ≤ s.length) && (s.data.take p.length == p.data)

/-! ## The routing handler -/

/-- The calls a run of the routing handler makes, in order: the log line and
the delegation to one of the two wrapped handlers.  `G` is the type of the
gRPC server, `H` of the plain HTTP handler, `W` of the `http.ResponseWriter`. -/
inductive Effect (G H W : Type) where
  | Infof (format : String) (args : List String)
  | GrpcServeHTTP (grpcServer : G) (w : W) (r : Request)
  | HttpServeHTTP (httpHandler : H) (w : W) (r : Request)
  deriving DecidableEq, Repr

/-- The closure returned by `grpcHandlerFunc`: an `http.HandlerFunc` that has
captured the two delegates. -/
structure HandlerFunc (G H : Type) where
  grpcServer : G
  httpHandler : H
  deriving DecidableEq, Repr

/-- Source `grpcHandlerFunc(grpcServer, httpHandler)`. -/
def grpcHandlerFunc {G H : Type} (grpcServer : G) (httpHandler : H) : HandlerFunc G H :=
  { grpcServer := grpcServer, httpHandler := httpHandler }

/-- The body of the closure built by `grpcHandlerFunc`: log the request, then
delegate on protocol major version and content type. -/
def HandlerFunc.ServeHTTP {G H W : Type} (f : HandlerFunc G H) (w : W) (r : Request) :
    List (Effect G H W) :=
  [Effect.Infof "grpcHandlerFunc handling %s request for %s with content-type %s"
      [r.Proto, r.URL, r.Header.Get "Content-Type"]] ++
  (if r.ProtoMajor == 2 && HasPrefix (r.Header.Get "Content-Type") "application/grpc" then
    [Effect.GrpcServeHTTP f.grpcServer w r]
  else
    [Effect.HttpServeHTTP f.httpHandler w r])

/-- Whether an effect is a delegation to the gRPC server. -/
def Effect.isGrpc {G H W : Type} : Effect G H W → Bool
  | Effect.GrpcServeHTTP _ _ _ => true
  | _ => false

/-- Whether an effect is a delegation to the plain HTTP handler. -/
def Effect.isHttp {G H W : Type} : Effect G H W → Bool
  | Effect.HttpServeHTTP _ _ _ => true
  | _ => false

/-- Whether an effect is a delegation to either wrapped handler. -/
def Effect.isDelegate {G H W : Type} (e : Effect G H W) : Bool :=
  e.isGrpc || e.isHttp

/-! ## Library objects used by `main` -/

/-- Go `error` value returned by a library call. -/
structure Error where
  msg : String
  deriving DecidableEq, Repr

/-- Go `*rest.Config`, a handle the program only passes on. -/
structure RestConfig where
  id : Nat
  deriving DecidableEq, Repr

/-- Go `*core.Factory`, a handle the program only passes on. -/
structure Factory where
  id : Nat
  deriving DecidableEq, Repr

/-- The secret controller obtained by `coreGetter.Core().V1().Secret()`. -/
structure SecretController where
  id : Nat
  deriving DecidableEq, Repr

/-- Go `x509.Certificate`; the program receives a pointer to it. -/
structure Certificate where
  Raw : List Nat
  deriving DecidableEq, Repr

/-- Go `crypto.Signer`, the CA private key. -/
structure Signer where
  id : Nat
  deriving DecidableEq, Repr

/-- Go `context.Context` returned by `signals.SetupSignalContext`. -/
structure Context where
  id : Nat
  deriving DecidableEq, Repr

/-- Go `*http.ServeMux` with its registered patterns. -/
structure ServeMux where
  patterns : List String
  deriving DecidableEq, Repr

/-- Go `http.NewServeMux()`: a multiplexer with no routes. -/
def NewServeMux : ServeMux := { patterns := [] }

/-- The logrus levels. -/
inductive Level where
  | PanicLevel | FatalLevel | ErrorLevel | WarnLevel | InfoLevel | DebugLevel | TraceLevel
  deriving DecidableEq, Repr

/-- Go `tls.ClientAuthType`. -/
inductive ClientAuthType where
  | NoClientCert | RequestClientCert | RequireAnyClientCert
  | VerifyClientCertIfGiven | RequireAndVerifyClientCert
  deriving DecidableEq, Repr

/-- Go `tls.Config`, with the fields the program sets. -/
structure TLSConfig where
  ClientAuth : ClientAuthType
  NextProtos : List String
  deriving DecidableEq, Repr

/-- Go `dynamiclistener.Config`, with the field the program sets. -/
structure Config where
  TLSConfig : Option TLSConfig
  deriving DecidableEq, Repr

/-- Go `server.ListenOpts`, with the fields the program sets; every other
field keeps its zero value. -/
structure ListenOpts where
  Secrets : SecretController
  CA : Option Certificate
  CAKey : Option Signer
  CAName : String
  CANamespace : String
  CertName : String
  CertNamespace : String
  TLSListenerConfig : Config
  deriving DecidableEq, Repr

/-- Go `time.Second`, in nanoseconds. -/
def Second : Int := 1000000000

/-- Go `time.Hour`, in nanoseconds. -/
def Hour : Int := 3600 * Second

/-- Go `keepalive.EnforcementPolicy`. -/
structure EnforcementPolicy where
  MinTime : Int
  PermitWithoutStream : Bool
  deriving DecidableEq, Repr

/-- Go `keepalive.ServerParameters`; fields the program leaves out are zero. -/
structure ServerParameters where
  MaxConnectionIdle : Int := 0
  MaxConnectionAge : Int := 0
  MaxConnectionAgeGrace : Int := 0
  Time : Int := 0
  Timeout : Int := 0
  deriving DecidableEq, Repr

/-- Go `grpc.ServerOption`, for the options this program names: the two
keepalive options it passes and the transport credentials it leaves
commented out. -/
inductive ServerOption where
  | KeepaliveEnforcementPolicy (kep : EnforcementPolicy)
  | KeepaliveParams (kp : ServerParameters)
  | Creds (cert : Option Certificate) (key : Option Signer)
  deriving DecidableEq, Repr

/-- Whether a server option installs transport credentials. -/
def ServerOption.isCreds : ServerOption → Bool
  | ServerOption.Creds _ _ => true
  | _ => false

/-- Go `healthpb.HealthCheckResponse_ServingStatus`. -/
inductive ServingStatus where
  | UNKNOWN | SERVING | NOT_SERVING | SERVICE_UNKNOWN
  deriving DecidableEq, Repr

/-- Go `*health.Server`: the status map, searched from the front. -/
structure HealthServer where
  statusMap : List (String × ServingStatus)
  deriving DecidableEq, Repr

/-- Go `health.NewServer()`: the overall status, under the empty service
name, starts as SERVING. -/
def HealthServer.NewServer : HealthServer :=
  { statusMap := [("", ServingStatus.SERVING)] }

/-- Go `(*health.Server).SetServingStatus(service, status)` on a server that
has not been shut down: the entry of `service` is replaced. -/
def HealthServer.SetServingStatus (s : HealthServer) (service : String)
    (status : ServingStatus) : HealthServer :=
  { statusMap := (service, status) :: s.statusMap.filter (fun p => p.1 != service) }

/-- The status a health check for `service` reports, if the service is known. -/
def HealthServer.status (s : HealthServer) (service : String) : Option ServingStatus :=
  s.statusMap.lookup service

/-- Go `*grpc.Server`: the options it was built with and the services
registered on it, by service name. -/
structure GrpcServer where
  opts : List ServerOption
  services : List (String × HealthServer)
  deriving DecidableEq, Repr

/-- Go `grpc.NewServer(opts...)`: a server with no services yet. -/
def GrpcServer.NewServer (opts : List ServerOption) : GrpcServer :=
  { opts := opts, services := [] }

/-- The service name in `healthpb.Health_ServiceDesc`. -/
def healthServiceName : String := "grpc.health.v1.Health"

/-- Go `healthpb.RegisterHealthServer(s, srv)`: registers `srv` on `s` under
the health service name. -/
def RegisterHealthServer (s : GrpcServer) (srv : HealthServer) : GrpcServer :=
  { s with services := s.services ++ [(healthServiceName, srv)] }

/-- Source `grpcServer(cert, key)`: builds the two keepalive options and a
new server from them; the credentials lines are commented out in the source,
and the returned error is always `nil`. -/
def grpcServer (_cert : Option Certificate) (_key : Option Signer) :
    GrpcServer × Option Error :=
  let gopts : List ServerOption :=
    [ ServerOption.KeepaliveEnforcementPolicy
        { MinTime := 5 * Second, PermitWithoutStream := false },
      ServerOption.KeepaliveParams
        { Time := 2 * Hour, Timeout := 20 * Second } ]
  (GrpcServer.NewServer gopts, none)

/-! ## The set-up sequence of `main` -/

/-- The outcomes of the library calls `main` makes.  Each call is made at most
once, so its outcome is a function of its arguments.  `Done ctx t` tells
whether the channel `ctx.Done()` is closed at tick `t`. -/
structure Env where
  SetupSignalContext : Context
  ClientConfig : RestConfig × Option Error
  NewFactoryFromConfig : RestConfig → Factory × Option Error
  Secret : Factory → SecretController
  LoadOrGenCA : SecretController → String → String →
    Option Certificate × Option Signer × Option Error
  ListenAndServe : Context → Int → Int → HandlerFunc GrpcServer ServeMux → ListenOpts →
    Option Error
  StartAll : Context → Int → Factory → Option Error
  Done : Context → Nat → Bool

/-- One call made by `main`, with its arguments and, for a call that returns
an error value, the error it returned. -/
inductive Step where
  | SetLevel (level : Level)
  | NewServeMux
  | SetupSignalContext
  | ClientConfig (err : Option Error)
  | NewFactoryFromConfig (restConfig : RestConfig) (err : Option Error)
  | Secret (coreGetter : Factory)
  | LoadOrGenCA (secrets : SecretController) (ns name : String) (err : Option Error)
  | grpcServer (cert : Option Certificate) (key : Option Signer) (err : Option Error)
  | NewHealthServer
  | SetServingStatus (service : String) (status : ServingStatus)
  | RegisterHealthServer (s : GrpcServer) (srv : HealthServer)
  | ListenAndServe (ctx : Context) (httpsPort httpPort : Int)
      (handler : HandlerFunc GrpcServer ServeMux) (opts : ListenOpts) (err : Option Error)
  | StartAll (ctx : Context) (threadiness : Int) (coreGetter : Factory) (err : Option Error)
  | RecvDone (ctx : Context)
  deriving DecidableEq, Repr

/-- The error value a step returned, `none` for `nil` and for calls that
return no error value. -/
def Step.err : Step → Option Error
  | Step.ClientConfig err => err
  | Step.NewFactoryFromConfig _ err => err
  | Step.LoadOrGenCA _ _ _ err => err
  | Step.grpcServer _ _ err => err
  | Step.ListenAndServe _ _ _ _ _ err => err
  | Step.StartAll _ _ _ err => err
  | _ => none

/-- How a run of `main` stands: it panicked with an error, it returned, or it
is still blocked on `<-ctx.Done()`. -/
inductive Outcome where
  | panicked (err : Error)
  | returned
  | blocked
  deriving DecidableEq, Repr

/-- A run of `main`: the calls made, in order, and how the run stands. -/
structure Run where
  trace : List Step
  outcome : Outcome
  deriving DecidableEq, Repr

/-- Go receive `<-ch` on a channel that is only ever closed: starting at tick
`now` and watching for `fuel` ticks, the tick at which the receive returns, or
`none` while it is still blocked. -/
def recv (closed : Nat → Bool) : Nat → Nat → Option Nat
  | 0, _ => none
  | fuel + 1, now => if closed now then some now else recv closed fuel (now + 1)

/-- Source `main`, run against the library outcomes `env` and observed for
`fuel` ticks of the final wait. -/
def main (env : Env) (fuel : Nat) : Run :=
  let t := [Step.SetLevel Level.DebugLevel]
  let handler := NewServeMux
  let t := t ++ [Step.NewServeMux]
  let ctx := env.SetupSignalContext
  let t := t ++ [Step.SetupSignalContext]
  match env.ClientConfig with
  | (_, some err) => { trace := t ++ [Step.ClientConfig (some err)], outcome := Outcome.panicked err }
  | (restConfig, none) =>
  let t := t ++ [Step.ClientConfig none]
  match env.NewFactoryFromConfig restConfig with
  | (_, some err) =>
    { trace := t ++ [Step.NewFactoryFromConfig restConfig (some err)],
      outcome := Outcome.panicked err }
  | (coreGetter, none) =>
  let t := t ++ [Step.NewFactoryFromConfig restConfig none]
  let secrets := env.Secret coreGetter
  let t := t ++ [Step.Secret coreGetter]
  match env.LoadOrGenCA secrets "default" "dynamiclister-ca" with
  | (_, _, some err) =>
    { trace := t ++ [Step.LoadOrGenCA secrets "default" "dynamiclister-ca" (some err)],
      outcome := Outcome.panicked err }
  | (caCert, caKey, none) =>
  let t := t ++ [Step.LoadOrGenCA secrets "default" "dynamiclister-ca" none]
  let opts : ListenOpts :=
    { Secrets := secrets,
      CA := caCert,
      CAKey := caKey,
      CAName := "dynamiclistener-ca",
      CANamespace := "default",
      CertName := "dynamiclistener",
      CertNamespace := "default",
      TLSListenerConfig :=
        { TLSConfig := some
            { ClientAuth := ClientAuthType.RequestClientCert,
              NextProtos := ["h2", "http/1.1"] } } }
  match grpcServer caCert caKey with
  | (_, some err) =>
    { trace := t ++ [Step.grpcServer caCert caKey (some err)], outcome := Outcome.panicked err }
  | (grpcSrv, none) =>
  let t := t ++ [Step.grpcServer caCert caKey none]
  let hsrv := HealthServer.NewServer
  let t := t ++ [Step.NewHealthServer]
  let hsrv := hsrv.SetServingStatus "ok" ServingStatus.SERVING
  let t := t ++ [Step.SetServingStatus "ok" ServingStatus.SERVING]
  let t := t ++ [Step.RegisterHealthServer grpcSrv hsrv]
  let grpcSrv := RegisterHealthServer grpcSrv hsrv
  match env.ListenAndServe ctx 8443 8080 (grpcHandlerFunc grpcSrv handler) opts with
  | some err =>
    { trace := t ++ [Step.ListenAndServe ctx 8443 8080 (grpcHandlerFunc grpcSrv handler) opts
        (some err)],
      outcome := Outcome.panicked err }
  | none =>
  let t := t ++ [Step.ListenAndServe ctx 8443 8080 (grpcHandlerFunc grpcSrv handler) opts none]
  match env.StartAll ctx 5 coreGetter with
  | some err =>
    { trace := t ++ [Step.StartAll ctx 5 coreGetter (some err)], outcome := Outcome.panicked err }
  | none =>
  let t := t ++ [Step.StartAll ctx 5 coreGetter none]
  let t := t ++ [Step.RecvDone ctx]
  match recv (env.Done ctx) fuel 0 with
  | some _ => { trace := t, outcome := Outcome.returned }
  | none => { trace := t, outcome := Outcome.blocked }

/-- The seven set-up phases the specification names. -/
inductive Phase where
  | loadClientConfig
  | buildCoreFactory
  | loadOrGenCA
  | buildGrpcServer
  | listenAndServe
  | startAll
  | waitForCancel
  deriving DecidableEq, Repr

/-- The phase a step belongs to; auxiliary calls that cannot fail belong to
none. -/
def Step.phase : Step → Option Phase
  | Step.ClientConfig _ => some Phase.loadClientConfig
  | Step.NewFactoryFromConfig _ _ => some Phase.buildCoreFactory
  | Step.LoadOrGenCA _ _ _ _ => some Phase.loadOrGenCA
  | Step.grpcServer _ _ _ => some Phase.buildGrpcServer
  | Step.ListenAndServe _ _ _ _ _ _ => some Phase.listenAndServe
  | Step.StartAll _ _ _ _ => some Phase.startAll
  | Step.RecvDone _ => some Phase.waitForCancel
  | _ => none

/-- The phases of a trace, in the order they were performed. -/
def phases (t : List Step) : List Phase :=
  t.filterMap Step.phase

/-- The fixed order of the set-up phases. -/
def fixedSequence : List Phase :=
  [Phase.loadClientConfig, Phase.buildCoreFactory, Phase.loadOrGenCA, Phase.buildGrpcServer,
   Phase.listenAndServe, Phase.startAll, Phase.waitForCancel]

/-- An environment in which every library call succeeds and the shutdown
signal arrives at tick 3. -/
def envOk : Env :=
  { SetupSignalContext := { id := 1 },
    ClientConfig := ({ id := 2 }, none),
    NewFactoryFromConfig := fun _ => ({ id := 3 }, none),
    Secret := fun _ => { id := 4 },
    LoadOrGenCA := fun _ _ _ => (some { Raw := [48, 130] }, some { id := 5 }, none),
    ListenAndServe := fun _ _ _ _ _ => none,
    StartAll := fun _ _ _ => none,
    Done := fun _ t => decide (3 ≤ t) }

/-- An environment in which the CA cannot be loaded or generated. -/
def envCAFails : Env :=
  { envOk with LoadOrGenCA := fun _ _ _ => (none, none, some { msg := "secrets forbidden" }) }

/-- An environment in which the listener cannot be started. -/
def envListenFails : Env :=
  { envOk with ListenAndServe := fun _ _ _ _ _ => some { msg := "address already in use" } }

/-- The listener options `main` builds in `envOk`. -/
def optsOk : ListenOpts :=
  { Secrets := { id := 4 },
    CA := some { Raw := [48, 130] },
    CAKey := some { id := 5 },
    CAName := "dynamiclistener-ca",
    CANamespace := "default",
    CertName := "dynamiclistener",
    CertNamespace := "default",
    TLSListenerConfig :=
      { TLSConfig := some
          { ClientAuth := ClientAuthType.RequestClientCert,
            NextProtos := ["h2", "http/1.1"] } } }

/-- The handler `main` passes to the listener in `envOk`. -/
def handlerOk : HandlerFunc GrpcServer ServeMux :=
  grpcHandlerFunc
    (RegisterHealthServer (grpcServer (some { Raw := [48, 130] }) (some { id := 5 })).1
      (HealthServer.NewServer.SetServingStatus "ok" ServingStatus.SERVING))
    NewServeMux

/-- An HTTP/2 request with a gRPC content type that carries a suffix. -/
def reqGrpc : Request :=
  { Method := "POST", URL := "/grpc.health.v1.Health/Check", Proto := "HTTP/2.0",
    ProtoMajor := 2, ProtoMinor := 0,
    Header := [("Content-Type", ["application/grpc+proto"])], Body := [] }

/-- An HTTP/1.1 request that nevertheless carries the gRPC content type. -/
def reqHttp1 : Request :=
  { Method := "POST", URL := "/", Proto := "HTTP/1.1", ProtoMajor := 1, ProtoMinor := 1,
    Header := [("Content-Type", ["application/grpc"])], Body := [] }

/-- An HTTP/2 request without any content type. -/
def reqPlain : Request :=
  { Method := "GET", URL := "/healthz", Proto := "HTTP/2.0", ProtoMajor := 2, ProtoMinor := 0,
    Header := [], Body := [] }

/-- The routing condition of the handler, as a proposition. -/
def isGrpcRequest (r : Request) : Prop :=
  r.ProtoMajor = 2 ∧ ∃ t : String, r.Header.Get "Content-Type" = "application/grpc" ++ t

/-! ## Lemmas on the routing test -/

theorem hasPrefix_iff_append (s p : String) :
    HasPrefix s p = true ↔ ∃ t : String, s = p ++ t := by
  constructor
  · intro h
    simp only [HasPrefix, Bool.and_eq_true, decide_eq_true_eq, beq_iff_eq] at h
    refine ⟨⟨s.data.drop p.length⟩, ?_⟩
    apply String.ext
    rw [String.data_append]
    conv_lhs => rw [← List.take_append_drop p.length s.data]
    rw [h.2]
  · rintro ⟨t, rfl⟩
    simp only [HasPrefix, Bool.and_eq_true, decide_eq_true_eq, beq_iff_eq, String.data_append,
      String.length_append]
    refine ⟨Nat.le_add_right _ _, ?_⟩
    have hlen : p.length = p.data.length := rfl
    rw [hlen, List.take_left]

theorem routeTest_iff (r : Request) :
    (r.ProtoMajor == 2 && HasPrefix (r.Header.Get "Content-Type") "application/grpc") = true ↔
      isGrpcRequest r := by
  simp only [Bool.and_eq_true, beq_iff_eq, hasPrefix_iff_append, isGrpcRequest]

theorem serveHTTP_grpc {G H W : Type} (f : HandlerFunc G H) (w : W) (r : Request)
    (h : isGrpcRequest r) :
    f.ServeHTTP w r =
      [Effect.Infof "grpcHandlerFunc handling %s request for %s with content-type %s"
          [r.Proto, r.URL, r.Header.Get "Content-Type"],
        Effect.GrpcServeHTTP f.grpcServer w r] := by
  have h1 := (routeTest_iff r).2 h
  simp only [HandlerFunc.ServeHTTP, h1, if_true, List.singleton_append]

theorem serveHTTP_http {G H W : Type} (f : HandlerFunc G H) (w : W) (r : Request)
    (h : ¬ isGrpcRequest r) :
    f.ServeHTTP w r =
      [Effect.Infof "grpcHandlerFunc handling %s request for %s with content-type %s"
          [r.Proto, r.URL, r.Header.Get "Content-Type"],
        Effect.HttpServeHTTP f.httpHandler w r] := by
  have h1 : ¬ ((r.ProtoMajor == 2 &&
      HasPrefix (r.Header.Get "Content-Type") "application/grpc") = true) :=
    fun hc => h ((routeTest_iff r).1 hc)
  simp [HandlerFunc.ServeHTTP, h1]

theorem grpcPrefix_data :
    ("application/grpc" : String).data =
      ['a', 'p', 'p', 'l', 'i', 'c', 'a', 't', 'i', 'o', 'n', '/', 'g', 'r', 'p', 'c'] := by
  decide

theorem not_isGrpcRequest_of_head (r : Request) (c : Char) (rest : String) (hc : c ≠ 'a')
    (h : r.Header.Get "Content-Type" = String.singleton c ++ rest) : ¬ isGrpcRequest r := by
  rintro ⟨_, t, ht⟩
  rw [h] at ht
  have hd := congrArg String.data ht
  rw [String.data_append, String.data_append, grpcPrefix_data] at hd
  simp only [String.singleton, String.push, List.nil_append, List.cons_append,
    List.cons.injEq] at hd
  exact hc hd.1

theorem not_isGrpcRequest_of_variant (r : Request) (p rest : String)
    (hlen : p.length = ("application/grpc" : String).length) (hne : p ≠ "application/grpc")
    (h : r.Header.Get "Content-Type" = p ++ rest) : ¬ isGrpcRequest r := by
  rintro ⟨_, t, ht⟩
  rw [h] at ht
  have hd := congrArg String.data ht
  rw [String.data_append, String.data_append] at hd
  have hl : p.data.length = ("application/grpc" : String).data.length := hlen
  exact hne (String.ext (List.append_inj hd hl).1)

theorem not_isGrpcRequest_of_absent (r : Request)
    (h : r.Header.lookup "Content-Type" = none) : ¬ isGrpcRequest r := by
  rintro ⟨_, t, ht⟩
  have hg : r.Header.Get "Content-Type" = "" := by
    simp [Header.Get, h]
  rw [hg] at ht
  have hd := congrArg String.data ht
  rw [String.data_append, grpcPrefix_data] at hd
  simp at hd

/-! ## The routing handler: claims C1, C7, C8 -/

/-- C1: for every request and every pair of delegates, the handler built by
`grpcHandlerFunc` calls the gRPC server on the request exactly when the
request has protocol major version 2 and its first Content-Type value starts
with `application/grpc`, and calls the HTTP handler exactly when it does not. -/
theorem grpcHandlerFunc_routes {G H W : Type} (grpcSrv : G) (httpHandler : H) (w : W)
    (r : Request) :
    (Effect.GrpcServeHTTP grpcSrv w r ∈ (grpcHandlerFunc grpcSrv httpHandler).ServeHTTP w r ↔
      (r.ProtoMajor = 2 ∧
        ∃ t : String, r.Header.Get "Content-Type" = "application/grpc" ++ t)) ∧
    (Effect.HttpServeHTTP httpHandler w r ∈ (grpcHandlerFunc grpcSrv httpHandler).ServeHTTP w r ↔
      ¬ (r.ProtoMajor = 2 ∧
        ∃ t : String, r.Header.Get "Content-Type" = "application/grpc" ++ t)) ∧
    ((∃ e ∈ ((grpcHandlerFunc grpcSrv httpHandler).ServeHTTP w r : List (Effect G H W)),
        e.isGrpc = true) ↔
      (r.ProtoMajor = 2 ∧
        ∃ t : String, r.Header.Get "Content-Type" = "application/grpc" ++ t)) ∧
    ((∃ e ∈ ((grpcHandlerFunc grpcSrv httpHandler).ServeHTTP w r : List (Effect G H W)),
        e.isHttp = true) ↔
      ¬ (r.ProtoMajor = 2 ∧
        ∃ t : String, r.Header.Get "Content-Type" = "application/grpc" ++ t)) := by
  by_cases h : isGrpcRequest r
  · have h2 : r.ProtoMajor = 2 ∧
        ∃ t : String, r.Header.Get "Content-Type" = "application/grpc" ++ t := h
    rw [serveHTTP_grpc _ w r h]
    simp [grpcHandlerFunc, Effect.isGrpc, Effect.isHttp, h2]
  · have h2 : ¬ (r.ProtoMajor = 2 ∧
        ∃ t : String, r.Header.Get "Content-Type" = "application/grpc" ++ t) := h
    rw [serveHTTP_http _ w r h]
    simp only [grpcHandlerFunc, Effect.isGrpc, Effect.isHttp, h2, List.mem_cons,
      List.mem_singleton, iff_false, not_false_eq_true, iff_true]
    simp

/-- C7: for every request the handler makes exactly one delegate call, to one
of its two delegates, with the response writer and the request it received;
its whole trace is the log line followed by that call, so it performs no
write to the response and no change to the request of its own. -/
theorem grpcHandlerFunc_delegates_once {G H W : Type} (grpcSrv : G) (httpHandler : H) (w : W)
    (r : Request) :
    (((grpcHandlerFunc grpcSrv httpHandler).ServeHTTP w r : List (Effect G H W)).filter
        Effect.isDelegate).length = 1 ∧
    (∀ e ∈ ((grpcHandlerFunc grpcSrv httpHandler).ServeHTTP w r : List (Effect G H W)),
      e.isDelegate = true →
        e = Effect.GrpcServeHTTP grpcSrv w r ∨ e = Effect.HttpServeHTTP httpHandler w r) ∧
    (∃ c : Effect G H W,
      (c = Effect.GrpcServeHTTP grpcSrv w r ∨ c = Effect.HttpServeHTTP httpHandler w r) ∧
      (grpcHandlerFunc grpcSrv httpHandler).ServeHTTP w r =
        [Effect.Infof "grpcHandlerFunc handling %s request for %s with content-type %s"
            [r.Proto, r.URL, r.Header.Get "Content-Type"], c]) := by
  by_cases h : isGrpcRequest r
  · rw [serveHTTP_grpc _ w r h]
    refine ⟨by simp [Effect.isDelegate, Effect.isGrpc, Effect.isHttp], ?_, ?_⟩
    · intro e he hd
      simp only [List.mem_cons, List.mem_singleton, List.mem_nil_iff, or_false] at he
      rcases he with rfl | rfl
      · simp [Effect.isDelegate, Effect.isGrpc, Effect.isHttp] at hd
      · exact Or.inl rfl
    · exact ⟨_, Or.inl rfl, rfl⟩
  · rw [serveHTTP_http _ w r h]
    refine ⟨by simp [Effect.isDelegate, Effect.isGrpc, Effect.isHttp], ?_, ?_⟩
    · intro e he hd
      simp only [List.mem_cons, List.mem_singleton, List.mem_nil_iff, or_false] at he
      rcases he with rfl | rfl
      · simp [Effect.isDelegate, Effect.isGrpc, Effect.isHttp] at hd
      · exact Or.inr rfl
    · exact ⟨_, Or.inr rfl, rfl⟩

/-- C8: the content-type test is a case-sensitive prefix match.  For an
HTTP/2 request, a Content-Type of `application/grpc` followed by any suffix is
served by the gRPC server; a Content-Type that begins with any other sixteen
characters (in particular a variant in another letter case), one that begins
with a whitespace character, and an absent Content-Type are served by the HTTP
handler. -/
theorem grpcHandlerFunc_case_sensitive_match {G H W : Type} (grpcSrv : G) (httpHandler : H)
    (w : W) (r : Request) (hr : r.ProtoMajor = 2) :
    (∀ suffix : String, r.Header.Get "Content-Type" = "application/grpc" ++ suffix →
      ((grpcHandlerFunc grpcSrv httpHandler).ServeHTTP w r : List (Effect G H W)).filter
        Effect.isDelegate = [Effect.GrpcServeHTTP grpcSrv w r]) ∧
    (∀ p rest : String, p.length = ("application/grpc" : String).length →
      p ≠ "application/grpc" → r.Header.Get "Content-Type" = p ++ rest →
      ((grpcHandlerFunc grpcSrv httpHandler).ServeHTTP w r : List (Effect G H W)).filter
        Effect.isDelegate = [Effect.HttpServeHTTP httpHandler w r]) ∧
    (∀ (c : Char) (rest : String), c.isWhitespace = true →
      r.Header.Get "Content-Type" = String.singleton c ++ rest →
      ((grpcHandlerFunc grpcSrv httpHandler).ServeHTTP w r : List (Effect G H W)).filter
        Effect.isDelegate = [Effect.HttpServeHTTP httpHandler w r]) ∧
    (r.Header.lookup "Content-Type" = none →
      ((grpcHandlerFunc grpcSrv httpHandler).ServeHTTP w r : List (Effect G H W)).filter
        Effect.isDelegate = [Effect.HttpServeHTTP httpHandler w r]) := by
  have hhttp : ¬ isGrpcRequest r →
      ((grpcHandlerFunc grpcSrv httpHandler).ServeHTTP w r : List (Effect G H W)).filter
        Effect.isDelegate = [Effect.HttpServeHTTP httpHandler w r] := by
    intro h
    rw [serveHTTP_http _ w r h]
    simp [grpcHandlerFunc, Effect.isDelegate, Effect.isGrpc, Effect.isHttp]
  refine ⟨?_, ?_, ?_, ?_⟩
  · intro suffix hs
    rw [serveHTTP_grpc _ w r ⟨hr, suffix, hs⟩]
    simp [grpcHandlerFunc, Effect.isDelegate, Effect.isGrpc, Effect.isHttp]
  · intro p rest hlen hne hs
    exact hhttp (not_isGrpcRequest_of_variant r p rest hlen hne hs)
  · intro c rest hc hs
    refine hhttp (not_isGrpcRequest_of_head r c rest ?_ hs)
    rintro rfl
    exact absurd hc (by decide)
  · intro habs
    exact hhttp (not_isGrpcRequest_of_absent r habs)

/-- Witness for C8: the HTTP/2 request `reqGrpc`, whose Content-Type is
`application/grpc+proto`, is served by the gRPC server. -/
theorem grpcHandlerFunc_case_sensitive_match_witness :
    reqGrpc.ProtoMajor = 2 ∧
    ((grpcHandlerFunc () ()).ServeHTTP () reqGrpc : List (Effect Unit Unit Unit)).filter
      Effect.isDelegate = [Effect.GrpcServeHTTP () () reqGrpc] :=
  ⟨rfl, (grpcHandlerFunc_case_sensitive_match () () () reqGrpc rfl).1 "+proto" (by decide)⟩

/-! ## Lemmas on the final wait and on traces -/

theorem recv_some (closed : Nat → Bool) (fuel now t : Nat) (h : recv closed fuel now = some t) :
    now ≤ t ∧ t < now + fuel ∧ closed t = true := by
  induction fuel generalizing now with
  | zero => simp [recv] at h
  | succ n ih =>
    simp only [recv] at h
    split at h
    · rename_i hc
      have ht : now = t := by simpa using h
      subst ht
      exact ⟨Nat.le_refl _, by omega, hc⟩
    · have h3 := ih (now + 1) h
      exact ⟨by omega, by omega, h3.2.2⟩

theorem recv_none (closed : Nat → Bool) (fuel now : Nat) (h : recv closed fuel now = none) :
    ∀ t, now ≤ t → t < now + fuel → closed t = false := by
  induction fuel generalizing now with
  | zero => intro t h1 h2; omega
  | succ n ih =>
    simp only [recv] at h
    split at h
    · simp at h
    · rename_i hc
      intro t h1 h2
      rcases Nat.eq_or_lt_of_le h1 with rfl | hlt
      · simpa using hc
      · exact ih (now + 1) h t hlt (by omega)

theorem recv_isSome_iff (closed : Nat → Bool) (fuel : Nat) :
    (∃ t, recv closed fuel 0 = some t) ↔ ∃ t, t < fuel ∧ closed t = true := by
  constructor
  · rintro ⟨t, ht⟩
    have h := recv_some closed fuel 0 t ht
    exact ⟨t, by omega, h.2.2⟩
  · rintro ⟨t, hlt, hc⟩
    cases hr : recv closed fuel 0 with
    | some u => exact ⟨u, rfl⟩
    | none =>
      have h := recv_none closed fuel 0 hr t (Nat.zero_le _) (by omega)
      rw [hc] at h
      exact absurd h (by decide)

theorem post_nil_of_dropLast_ok (l pre post : List Step) (s : Step)
    (h : ∀ x ∈ l.dropLast, x.err = none) (hl : l = pre ++ s :: post) (hs : s.err ≠ none) :
    post = [] := by
  by_contra hne
  apply hs
  apply h
  subst hl
  rw [List.dropLast_append_of_ne_nil _ (List.cons_ne_nil s post),
    List.dropLast_cons_of_ne_nil hne]
  simp

/-! ## The set-up sequence: claims C2, C3, C4 -/

/-- C2: `main` panics exactly when one of its initialization steps returns an
error, and it panics with that error.  In terms of what the library calls
return: an error from loading the client config panics; after a successful
load, an error from building the core factory panics; after both, an error
from `LoadOrGenCA` panics; after all three, an error from `grpcServer`, from
`ListenAndServe`, or (the listener having started) from `start.All` panics;
and when all of them return nil `main` does not panic.  On the trace: the run
has panicked with `e` exactly when a step it performed returned `e`. -/
theorem main_panics_iff_step_error (env : Env) (fuel : Nat) :
    (∀ (rc : RestConfig) (e : Error), env.ClientConfig = (rc, some e) →
      (main env fuel).outcome = Outcome.panicked e) ∧
    (∀ (rc : RestConfig) (f : Factory) (e : Error), env.ClientConfig = (rc, none) →
      env.NewFactoryFromConfig rc = (f, some e) →
      (main env fuel).outcome = Outcome.panicked e) ∧
    (∀ (rc : RestConfig) (f : Factory) (ca : Option Certificate) (key : Option Signer)
      (e : Error), env.ClientConfig = (rc, none) →
      env.NewFactoryFromConfig rc = (f, none) →
      env.LoadOrGenCA (env.Secret f) "default" "dynamiclister-ca" = (ca, key, some e) →
      (main env fuel).outcome = Outcome.panicked e) ∧
    (∀ (rc : RestConfig) (f : Factory) (ca : Option Certificate) (key : Option Signer),
      env.ClientConfig = (rc, none) →
      env.NewFactoryFromConfig rc = (f, none) →
      env.LoadOrGenCA (env.Secret f) "default" "dynamiclister-ca" = (ca, key, none) →
      (∀ e : Error, (grpcServer ca key).2 = some e →
        (main env fuel).outcome = Outcome.panicked e) ∧
      (∀ e : Error,
        env.ListenAndServe env.SetupSignalContext 8443 8080
          (grpcHandlerFunc
            (RegisterHealthServer (grpcServer ca key).1
              (HealthServer.NewServer.SetServingStatus "ok" ServingStatus.SERVING))
            NewServeMux)
          { Secrets := env.Secret f, CA := ca, CAKey := key,
            CAName := "dynamiclistener-ca", CANamespace := "default",
            CertName := "dynamiclistener", CertNamespace := "default",
            TLSListenerConfig :=
              { TLSConfig := some
                  { ClientAuth := ClientAuthType.RequestClientCert,
                    NextProtos := ["h2", "http/1.1"] } } } = some e →
        (main env fuel).outcome = Outcome.panicked e) ∧
      (env.ListenAndServe env.SetupSignalContext 8443 8080
          (grpcHandlerFunc
            (RegisterHealthServer (grpcServer ca key).1
              (HealthServer.NewServer.SetServingStatus "ok" ServingStatus.SERVING))
            NewServeMux)
          { Secrets := env.Secret f, CA := ca, CAKey := key,
            CAName := "dynamiclistener-ca", CANamespace := "default",
            CertName := "dynamiclistener", CertNamespace := "default",
            TLSListenerConfig :=
              { TLSConfig := some
                  { ClientAuth := ClientAuthType.RequestClientCert,
                    NextProtos := ["h2", "http/1.1"] } } } = none →
        (∀ e : Error, env.StartAll env.SetupSignalContext 5 f = some e →
          (main env fuel).outcome = Outcome.panicked e) ∧
        (env.StartAll env.SetupSignalContext 5 f = none →
          ∀ e : Error, (main env fuel).outcome ≠ Outcome.panicked e))) ∧
    (∀ e : Error, (main env fuel).outcome = Outcome.panicked e ↔
        ∃ s ∈ (main env fuel).trace, s.err = some e) ∧
    ((∀ s ∈ (main env fuel).trace, s.err = none) →
        ∀ e : Error, (main env fuel).outcome ≠ Outcome.panicked e) := by
  have key : ∀ e : Error, (main env fuel).outcome = Outcome.panicked e ↔
        ∃ s ∈ (main env fuel).trace, s.err = some e := by
    intro e
    unfold main
    simp only []
    split
    · simp [Step.err]
    · split
      · simp [Step.err]
      · split
        · simp [Step.err]
        · split
          · simp [Step.err]
          · split
            · simp [Step.err]
            · split
              · simp [Step.err]
              · split <;> simp [Step.err]
  refine ⟨?_, ?_, ?_, ?_, key, ?_⟩
  · intro rc e h1
    simp [main, h1]
  · intro rc f e h1 h2
    simp [main, h1, h2]
  · intro rc f ca k e h1 h2 h3
    simp [main, h1, h2, h3]
  · intro rc f ca k h1 h2 h3
    refine ⟨?_, ?_, ?_⟩
    · intro e he
      simp [grpcServer] at he
    · intro e h4
      simp only [grpcServer] at h4
      simp [main, h1, h2, h3, grpcServer, h4]
    · intro h4
      simp only [grpcServer] at h4
      refine ⟨?_, ?_⟩
      · intro e h5
        simp [main, h1, h2, h3, grpcServer, h4, h5]
      · intro h5 e
        simp only [main, h1, h2, h3, grpcServer, h4, h5]
        split <;> simp
  · intro hok e he
    obtain ⟨s, hs, hse⟩ := (key e).1 he
    rw [hok s hs] at hse
    exact absurd hse (by simp)

/-- Witness for C2: when `LoadOrGenCA` returns an error `main` panics with
that error, when the listener cannot start it panics with the listener's
error, and with every library call succeeding it does not panic. -/
theorem main_panics_iff_step_error_witness :
    (main envCAFails 5).outcome = Outcome.panicked { msg := "secrets forbidden" } ∧
    (main envListenFails 5).outcome = Outcome.panicked { msg := "address already in use" } ∧
    (∀ e : Error, (main envOk 5).outcome ≠ Outcome.panicked e) :=
  ⟨(main_panics_iff_step_error envCAFails 5).2.2.1 { id := 2 } { id := 3 } none none
      { msg := "secrets forbidden" } rfl rfl rfl,
   ((main_panics_iff_step_error envListenFails 5).2.2.2.1 { id := 2 } { id := 3 }
      (some { Raw := [48, 130] }) (some { id := 5 }) rfl rfl rfl).2.1
      { msg := "address already in use" } rfl,
   (((main_panics_iff_step_error envOk 5).2.2.2.1 { id := 2 } { id := 3 }
      (some { Raw := [48, 130] }) (some { id := 5 }) rfl rfl rfl).2.2 rfl).2 rfl⟩

/-- C3: for every outcome of the library calls, the phases `main` performs
form an initial segment of the fixed sequence, each at most once; a step that
returned an error is the last step of the run; so no `ListenAndServe` is
performed when `LoadOrGenCA` failed and no `start.All` when `ListenAndServe`
failed. -/
theorem main_steps_in_fixed_order (env : Env) (fuel : Nat) :
    phases (main env fuel).trace <+: fixedSequence ∧
    (phases (main env fuel).trace).Nodup ∧
    (∀ (pre post : List Step) (s : Step),
      (main env fuel).trace = pre ++ s :: post → s.err ≠ none → post = []) ∧
    (∀ (secrets : SecretController) (ns name : String) (e : Error),
      Step.LoadOrGenCA secrets ns name (some e) ∈ (main env fuel).trace →
        Phase.listenAndServe ∉ phases (main env fuel).trace) ∧
    (∀ (ctx : Context) (p q : Int) (h : HandlerFunc GrpcServer ServeMux) (o : ListenOpts)
      (e : Error),
      Step.ListenAndServe ctx p q h o (some e) ∈ (main env fuel).trace →
        Phase.startAll ∉ phases (main env fuel).trace) := by
  have hdrop : ∀ x ∈ (main env fuel).trace.dropLast, x.err = none := by
    unfold main
    simp only []
    split
    · simp [Step.err]
    · split
      · simp [Step.err]
      · split
        · simp [Step.err]
        · split
          · simp [Step.err]
          · split
            · simp [Step.err]
            · split
              · simp [Step.err]
              · split <;> simp [Step.err]
  refine ⟨?_, ?_, fun pre post s hl hs => post_nil_of_dropLast_ok _ pre post s hdrop hl hs, ?_, ?_⟩
  · unfold main
    simp only []
    split
    · simp [phases, Step.phase, fixedSequence]
    · split
      · simp [phases, Step.phase, fixedSequence]
      · split
        · simp [phases, Step.phase, fixedSequence]
        · split
          · simp [phases, Step.phase, fixedSequence]
          · split
            · simp [phases, Step.phase, fixedSequence]
            · split
              · simp [phases, Step.phase, fixedSequence]
              · split <;> simp [phases, Step.phase, fixedSequence]
  · unfold main
    simp only []
    split
    · simp [phases, Step.phase]
    · split
      · simp [phases, Step.phase]
      · split
        · simp [phases, Step.phase]
        · split
          · simp [phases, Step.phase]
          · split
            · simp [phases, Step.phase]
            · split
              · simp [phases, Step.phase]
              · split <;> simp [phases, Step.phase]
  · intro secrets ns name e
    unfold main
    simp only []
    split
    · simp [phases, Step.phase]
    · split
      · simp [phases, Step.phase]
      · split
        · simp [phases, Step.phase]
        · split
          · simp [phases, Step.phase]
          · split
            · simp [phases, Step.phase]
            · split
              · simp [phases, Step.phase]
              · split <;> simp [phases, Step.phase]
  · intro ctx p q h o e
    unfold main
    simp only []
    split
    · simp [phases, Step.phase]
    · split
      · simp [phases, Step.phase]
      · split
        · simp [phases, Step.phase]
        · split
          · simp [phases, Step.phase]
          · split
            · simp [phases, Step.phase]
            · split
              · simp [phases, Step.phase]
              · split <;> simp [phases, Step.phase]

/-- Witness for C3: when the CA cannot be loaded the run stops before the
listener, and when the listener fails the run stops before the informers. -/
theorem main_steps_in_fixed_order_witness :
    Phase.listenAndServe ∉ phases (main envCAFails 5).trace ∧
    Phase.startAll ∉ phases (main envListenFails 5).trace :=
  ⟨(main_steps_in_fixed_order envCAFails 5).2.2.2.1 { id := 4 } "default" "dynamiclister-ca"
      { msg := "secrets forbidden" } (by decide),
   (main_steps_in_fixed_order envListenFails 5).2.2.2.2 { id := 1 } 8443 8080 handlerOk optsOk
      { msg := "address already in use" } (by decide)⟩

/-- C4: when every step `main` performs succeeds, the last step of the run is
the receive on `ctx.Done()` of the signal context; the run has returned
exactly when that channel was closed at some tick of the wait observed so far,
and while it has not been closed the run is blocked. -/
theorem main_blocks_until_done (env : Env) (fuel : Nat)
    (hok : ∀ s ∈ (main env fuel).trace, s.err = none) :
    (main env fuel).trace.getLast? = some (Step.RecvDone env.SetupSignalContext) ∧
    ((main env fuel).outcome = Outcome.returned ↔
      ∃ t, t < fuel ∧ env.Done env.SetupSignalContext t = true) ∧
    ((∀ t, t < fuel → env.Done env.SetupSignalContext t = false) →
      (main env fuel).outcome = Outcome.blocked) := by
  have hiff := recv_isSome_iff (env.Done env.SetupSignalContext) fuel
  have hnone : ∀ t, t < fuel → recv (env.Done env.SetupSignalContext) fuel 0 = none →
      env.Done env.SetupSignalContext t = false := fun t ht hr =>
    recv_none _ fuel 0 hr t (Nat.zero_le _) (by omega)
  revert hok
  unfold main
  simp only []
  split
  · simp [Step.err]
  · split
    · simp [Step.err]
    · split
      · simp [Step.err]
      · split
        · simp [Step.err]
        · split
          · simp [Step.err]
          · split
            · simp [Step.err]
            · split
              · rename_i u hu
                intro _
                refine ⟨by simp, ?_, ?_⟩
                · simp only [true_iff]
                  exact hiff.1 ⟨u, hu⟩
                · intro hall
                  obtain ⟨t, ht, hd⟩ := hiff.1 ⟨u, hu⟩
                  rw [hall t ht] at hd
                  exact absurd hd (by decide)
              · rename_i hu
                intro _
                refine ⟨by simp, ?_, ?_⟩
                · simp only [false_iff, reduceCtorEq]
                  rintro ⟨t, ht, hd⟩
                  rw [hnone t ht hu] at hd
                  exact absurd hd (by decide)
                · intro _
                  rfl

/-- Witness for C4: with every call succeeding and the signal arriving at
tick 3, the run is still blocked after two ticks. -/
theorem main_blocks_until_done_witness :
    (main envOk 2).trace.getLast? = some (Step.RecvDone envOk.SetupSignalContext) ∧
    (main envOk 2).outcome = Outcome.blocked :=
  ⟨(main_blocks_until_done envOk 2 (by decide)).1,
   (main_blocks_until_done envOk 2 (by decide)).2.2 (by decide)⟩

/-! ## The CA secret, the health service and the server options: C5, C6, C9 -/

/-- C5: on every run that performs both `LoadOrGenCA` and `ListenAndServe`,
the namespace passed to `LoadOrGenCA` equals the `CANamespace` of the listener
options and the `CA` and `CAKey` of the options are the certificate and key
`LoadOrGenCA` returned, but the secret name passed to `LoadOrGenCA`,
`dynamiclister-ca`, differs from the `CAName` of the options,
`dynamiclistener-ca`. -/
theorem main_ca_secret_name_differs (env : Env) (fuel : Nat)
    (secrets : SecretController) (ns name : String) (e1 : Option Error)
    (ctx : Context) (p q : Int) (handler : HandlerFunc GrpcServer ServeMux) (opts : ListenOpts)
    (e2 : Option Error)
    (h1 : Step.LoadOrGenCA secrets ns name e1 ∈ (main env fuel).trace)
    (h2 : Step.ListenAndServe ctx p q handler opts e2 ∈ (main env fuel).trace) :
    ns = opts.CANamespace ∧
    opts.CA = (env.LoadOrGenCA secrets ns name).1 ∧
    opts.CAKey = (env.LoadOrGenCA secrets ns name).2.1 ∧
    opts.Secrets = secrets ∧
    name = "dynamiclister-ca" ∧
    opts.CAName = "dynamiclistener-ca" ∧
    name ≠ opts.CAName := by
  revert h1 h2
  unfold main
  simp only []
  split
  · simp
  · split
    · simp
    · split
      · simp
      · rename_i caCert caKey hca
        have hne : ("dynamiclister-ca" : String) ≠ "dynamiclistener-ca" := by decide
        split
        · simp
        · split
          · simp only [List.mem_append, List.mem_cons, List.mem_singleton, List.mem_nil_iff,
              reduceCtorEq, or_false, false_or, Step.LoadOrGenCA.injEq,
              Step.ListenAndServe.injEq, List.nil_append, List.cons_append]
            rintro ⟨rfl, rfl, rfl, rfl⟩ ⟨rfl, rfl, rfl, rfl, rfl, rfl⟩
            simp [hca, hne]
          · split
            · simp only [List.mem_append, List.mem_cons, List.mem_singleton, List.mem_nil_iff,
                reduceCtorEq, or_false, false_or, Step.LoadOrGenCA.injEq,
                Step.ListenAndServe.injEq, List.nil_append, List.cons_append]
              rintro ⟨rfl, rfl, rfl, rfl⟩ ⟨rfl, rfl, rfl, rfl, rfl, rfl⟩
              simp [hca, hne]
            · split <;>
              · simp only [List.mem_append, List.mem_cons, List.mem_singleton,
                  List.mem_nil_iff, reduceCtorEq, or_false, false_or, Step.LoadOrGenCA.injEq,
                  Step.ListenAndServe.injEq, List.nil_append, List.cons_append]
                rintro ⟨rfl, rfl, rfl, rfl⟩ ⟨rfl, rfl, rfl, rfl, rfl, rfl⟩
                simp [hca, hne]

/-- Witness for C5: in the run where every call succeeds, the CA secret is
fetched under one name and the listener is told another. -/
theorem main_ca_secret_name_differs_witness :
    ("default" : String) = optsOk.CANamespace ∧
    optsOk.CA = (envOk.LoadOrGenCA { id := 4 } "default" "dynamiclister-ca").1 ∧
    optsOk.CAKey = (envOk.LoadOrGenCA { id := 4 } "default" "dynamiclister-ca").2.1 ∧
    optsOk.Secrets = { id := 4 } ∧
    ("dynamiclister-ca" : String) = "dynamiclister-ca" ∧
    optsOk.CAName = "dynamiclistener-ca" ∧
    ("dynamiclister-ca" : String) ≠ optsOk.CAName :=
  main_ca_secret_name_differs envOk 0 { id := 4 } "default" "dynamiclister-ca" none
    { id := 1 } 8443 8080 handlerOk optsOk none (by decide) (by decide)

/-- C6: on every run that performs `ListenAndServe`, the registration of a
health server on the gRPC server built by `grpcServer` occurs earlier in the
trace; the handler passed to the listener wraps that server after the
registration, so its gRPC server carries the health service, and the
registered health server reports SERVING for the service name `ok`. -/
theorem main_health_registered_before_listen (env : Env) (fuel : Nat)
    (ctx : Context) (p q : Int) (handler : HandlerFunc GrpcServer ServeMux) (opts : ListenOpts)
    (e : Option Error)
    (h : Step.ListenAndServe ctx p q handler opts e ∈ (main env fuel).trace) :
    ∃ (hsrv : HealthServer) (i j : Nat),
      i < j ∧
      (main env fuel).trace[i]? =
        some (Step.RegisterHealthServer (grpcServer opts.CA opts.CAKey).1 hsrv) ∧
      (main env fuel).trace[j]? = some (Step.ListenAndServe ctx p q handler opts e) ∧
      handler =
        grpcHandlerFunc (RegisterHealthServer (grpcServer opts.CA opts.CAKey).1 hsrv)
          NewServeMux ∧
      (healthServiceName, hsrv) ∈ handler.grpcServer.services ∧
      hsrv.status "ok" = some ServingStatus.SERVING := by
  revert h
  unfold main
  simp only []
  split
  · simp
  · split
    · simp
    · split
      · simp
      · split
        · simp
        · rename_i grpcSrv hg
          have hg1 : ∀ c k, (grpcServer c k).1 = grpcSrv := by
            intro c k
            have := congrArg Prod.fst hg
            simpa [grpcServer] using this
          have hst : (HealthServer.NewServer.SetServingStatus "ok" ServingStatus.SERVING).status
              "ok" = some ServingStatus.SERVING := by decide
          split
          · simp only [List.mem_append, List.mem_cons, List.mem_singleton, List.mem_nil_iff,
              reduceCtorEq, or_false, false_or, Step.ListenAndServe.injEq]
            rintro ⟨rfl, rfl, rfl, rfl, rfl, rfl⟩
            refine ⟨_, 10, 11, by omega, ?_, ?_, ?_, ?_, hst⟩
            · simp [hg1]
            · simp
            · simp [hg1]
            · simp [grpcHandlerFunc, RegisterHealthServer]
          · split
            · simp only [List.mem_append, List.mem_cons, List.mem_singleton, List.mem_nil_iff,
                reduceCtorEq, or_false, false_or, Step.ListenAndServe.injEq]
              rintro ⟨rfl, rfl, rfl, rfl, rfl, rfl⟩
              refine ⟨_, 10, 11, by omega, ?_, ?_, ?_, ?_, hst⟩
              · simp [hg1]
              · simp
              · simp [hg1]
              · simp [grpcHandlerFunc, RegisterHealthServer]
            · split <;>
              · simp only [List.mem_append, List.mem_cons, List.mem_singleton,
                  List.mem_nil_iff, reduceCtorEq, or_false, false_or,
                  Step.ListenAndServe.injEq]
                rintro ⟨rfl, rfl, rfl, rfl, rfl, rfl⟩
                refine ⟨_, 10, 11, by omega, ?_, ?_, ?_, ?_, hst⟩
                · simp [hg1]
                · simp
                · simp [hg1]
                · simp [grpcHandlerFunc, RegisterHealthServer]

/-- Witness for C6: in the run where every call succeeds, the handler given to
the listener wraps a gRPC server on which a health server that reports SERVING
for `ok` was registered earlier. -/
theorem main_health_registered_before_listen_witness :
    ∃ (hsrv : HealthServer) (i j : Nat),
      i < j ∧
      (main envOk 0).trace[i]? =
        some (Step.RegisterHealthServer (grpcServer optsOk.CA optsOk.CAKey).1 hsrv) ∧
      (main envOk 0).trace[j]? =
        some (Step.ListenAndServe { id := 1 } 8443 8080 handlerOk optsOk none) ∧
      handlerOk =
        grpcHandlerFunc (RegisterHealthServer (grpcServer optsOk.CA optsOk.CAKey).1 hsrv)
          NewServeMux ∧
      (healthServiceName, hsrv) ∈ handlerOk.grpcServer.services ∧
      hsrv.status "ok" = some ServingStatus.SERVING :=
  main_health_registered_before_listen envOk 0 { id := 1 } 8443 8080 handlerOk optsOk none
    (by decide)

/-- C9: `grpcServer` returns a nil error for every certificate and key, nil
ones included, so no run of `main` contains a failed `grpcServer` step and no
panic follows one; the server it builds has exactly the two keepalive options
(enforcement MinTime 5s without PermitWithoutStream; Time 2h, Timeout 20s), no
transport credentials and no dependence on the certificate or the key. -/
theorem grpcServer_never_fails (cert : Option Certificate) (key : Option Signer) :
    (grpcServer cert key).2 = none ∧
    (grpcServer none none).2 = none ∧
    (grpcServer cert key).1.opts =
      [ ServerOption.KeepaliveEnforcementPolicy
          { MinTime := 5000000000, PermitWithoutStream := false },
        ServerOption.KeepaliveParams
          { MaxConnectionIdle := 0, MaxConnectionAge := 0, MaxConnectionAgeGrace := 0,
            Time := 7200000000000, Timeout := 20000000000 } ] ∧
    (∀ o ∈ (grpcServer cert key).1.opts, o.isCreds = false) ∧
    (∀ (cert2 : Option Certificate) (key2 : Option Signer),
      grpcServer cert2 key2 = grpcServer cert key) ∧
    (∀ (env : Env) (fuel : Nat) (c : Option Certificate) (k : Option Signer) (e : Error),
      Step.grpcServer c k (some e) ∉ (main env fuel).trace) ∧
    (∀ (env : Env) (fuel : Nat) (c : Option Certificate) (k : Option Signer)
      (eo : Option Error) (e : Error),
      (main env fuel).outcome = Outcome.panicked e →
        (main env fuel).trace.getLast? ≠ some (Step.grpcServer c k eo)) := by
  refine ⟨rfl, rfl, ?_, ?_, fun _ _ => rfl, ?_, ?_⟩
  · simp [grpcServer, GrpcServer.NewServer, Second, Hour]
  · simp [grpcServer, GrpcServer.NewServer, ServerOption.isCreds]
  · intro env fuel c k e
    unfold main
    simp only []
    split
    · simp
    · split
      · simp
      · split
        · simp
        · split
          · rename_i hg
            simp [grpcServer] at hg
          · split
            · simp
            · split
              · simp
              · split <;> simp
  · intro env fuel c k eo e
    unfold main
    simp only []
    split
    · simp
    · split
      · simp
      · split
        · simp
        · split
          · rename_i hg
            simp [grpcServer] at hg
          · split
            · simp
            · split
              · simp
              · split <;> simp

end DynamicGrpc
